import Mathlib

/-!
Motion reference handlers: mode negotiation and dispatch.

A shallow embedding of `src/basic_motion_commands.cpp` and
`src/trajectory_motion.cpp`.

* The private statics of `BasicMotionCommandsHandler` (`number_of_instances_`,
  `set_mode_client_`, `controller_info_sub_`, `current_mode_`) together with
  the transport (what has been published on each topic, what has been sent on
  the mode service) form the process-wide `World`.
* The non-static members of one handler object form a `Handler`.
* Calls into `rclcpp` whose answer the code branches on
  (`wait_for_service`, `rclcpp::ok`, `spin_until_future_complete`, `now`) are
  answered by an explicit script passed to the function.
* Declarations that live in headers absent from the sources (the message
  constants, the member `setControlMode`, the storage class of the three
  publisher members) are collected in `Decls` and every function that needs
  them takes them as a parameter.

Numeric setpoint values are only stored and copied by this code, never
computed with, so the cell type is a parameter `α`.
-/

namespace as2
namespace motionCommandsHandlers

/-! ## Messages -/

/-- Message `as2_msgs::msg::ControllerControlMode`, the type of `current_mode_`
and `desired_control_mode_`: three `uint8` fields.  The code only assigns and
compares them, so they are natural numbers; `!=` on messages is field-wise. -/
structure ControllerControlMode where
  yaw_mode : Nat
  control_mode : Nat
  reference_frame : Nat
deriving DecidableEq, Repr

/-- Message `as2_msgs::msg::ControllerInfo`; the subscription callback reads
its field `current_control_mode`. -/
structure ControllerInfo where
  current_control_mode : ControllerControlMode
deriving DecidableEq, Repr

/-- Message `trajectory_msgs::msg::JointTrajectoryPoint`: the setpoint matrix.
Column `positions`, `velocities`, `accelerations`, each indexed x, y, z, yaw. -/
structure JointTrajectoryPoint (α : Type) where
  positions : List α
  velocities : List α
  accelerations : List α
  effort : List α
  time_from_start : Int
deriving DecidableEq, Repr

/-- Message header `std_msgs::msg::Header`. -/
structure Header where
  stamp : Nat
  frame_id : String
deriving DecidableEq, Repr

/-- Message `geometry_msgs::msg::Vector3` (also used for a point). -/
structure Vector3 (α : Type) where
  x : α
  y : α
  z : α
deriving DecidableEq, Repr

/-- Message `geometry_msgs::msg::Twist`. -/
structure Twist (α : Type) where
  linear : Vector3 α
  angular : Vector3 α
deriving DecidableEq, Repr

/-- Message `geometry_msgs::msg::TwistStamped`. -/
structure TwistStamped (α : Type) where
  header : Header
  twist : Twist α
deriving DecidableEq, Repr

/-- Message `geometry_msgs::msg::PoseStamped` (position and orientation
quaternion x, y, z, w). -/
structure PoseStamped (α : Type) where
  header : Header
  position : Vector3 α
  orientation : Vector3 α × α
deriving DecidableEq, Repr

/-! ## State -/

/-- The three publisher members `command_traj_pub_`, `command_twist_pub_` and
`command_pose_pub_` (shared pointers; `true` when non-null). -/
structure Publishers where
  command_traj_pub_ : Bool
  command_twist_pub_ : Bool
  command_pose_pub_ : Bool
deriving DecidableEq, Repr

/-- Three null publisher pointers. -/
def Publishers.null : Publishers :=
  { command_traj_pub_ := false, command_twist_pub_ := false, command_pose_pub_ := false }

/-- The three publishers as the set-up block leaves them (lines 14-21). -/
def Publishers.created : Publishers :=
  { command_traj_pub_ := true, command_twist_pub_ := true, command_pose_pub_ := true }

/-- All three publish channels have their publisher. -/
def Publishers.valid (ps : Publishers) : Bool :=
  ps.command_traj_pub_ && ps.command_twist_pub_ && ps.command_pose_pub_

/-- Non-static members of one `BasicMotionCommandsHandler` object.
`node_ptr_` is `none` for `nullptr`.  `publishers` holds the three publisher
members when the absent header declares them per object. -/
structure Handler (α : Type) where
  node_ptr_ : Option Nat
  publishers : Publishers
  desired_control_mode_ : ControllerControlMode
  command_trajectory_msg_ : JointTrajectoryPoint α
  command_pose_msg_ : PoseStamped α
  command_twist_msg_ : TwistStamped α
deriving DecidableEq, Repr

/-- Process-wide state.  The first four fields are the statics defined at the
end of `basic_motion_commands.cpp` (a shared pointer is `true` when non-null).
`number_of_instances_` is a C++ `int`; it is an unbounded integer here, the
count of live objects staying far below 2^31.
The others record what the transport has seen: how many times the channel
set-up block and the tear-down block have run, the messages published on the
trajectory, twist and pose topics, how many times the mode service has been
probed, and the requests sent on it.  `publishers` holds the three publisher
members when the absent header declares them `static`. -/
structure World (α : Type) where
  number_of_instances_ : Int
  publishers : Publishers
  set_mode_client_ : Bool
  controller_info_sub_ : Bool
  current_mode_ : ControllerControlMode
  setups : Nat
  teardowns : Nat
  trajectory_channel : List (JointTrajectoryPoint α)
  twist_channel : List (TwistStamped α)
  pose_channel : List (PoseStamped α)
  service_probes : Nat
  requests : List ControllerControlMode
deriving DecidableEq, Repr

/-- The statics as initialised at program start (lines 153-159): count 0, null
client and subscription, a default-constructed (all zero) mode. -/
def World.start (α : Type) : World α :=
  { number_of_instances_ := 0
    publishers := Publishers.null
    set_mode_client_ := false
    controller_info_sub_ := false
    current_mode_ := { yaw_mode := 0, control_mode := 0, reference_frame := 0 }
    setups := 0
    teardowns := 0
    trajectory_channel := []
    twist_channel := []
    pose_channel := []
    service_probes := 0
    requests := [] }

/-! ## Declarations absent from the sources -/

/-- Constants of `as2_msgs::msg::ControllerControlMode` named by the two
`switch` statements of `publishCommands`.  Their values are declared outside
the sources and are parameters.  A C++ `switch` only compiles when its case
labels are pairwise different, which the two proof fields record. -/
structure ControllerControlModeConstants where
  HOVER_MODE : Nat
  TRAJECTORY_MODE : Nat
  SPEED_MODE : Nat
  UNSET : Nat
  YAW_ANGLE : Nat
  YAW_SPEED : Nat
  NONE : Nat
  control_labels : [HOVER_MODE, TRAJECTORY_MODE, SPEED_MODE, UNSET].Nodup
  yaw_labels : [YAW_ANGLE, YAW_SPEED, NONE].Nodup

/-- Constants of `as2_msgs::msg::ControlMode` that `trajectory_motion.cpp`
writes into `desired_control_mode_`.  Declared outside the sources. -/
structure ControlModeConstants where
  NONE : Nat
  YAW_ANGLE : Nat
  YAW_SPEED : Nat
  TRAJECTORY : Nat
  LOCAL_ENU_FRAME : Nat

/-- Everything the two translation units use from absent headers.
`setControlMode` is the member that `sendCommand` calls first, without
arguments and discarding any result; it is declared in the absent
`basic_motion_commands.hpp`.  It is taken as an arbitrary update of the
members of the handler it is called on.
`publishers_static` is the storage class of the three publisher members,
declared in the same absent header: `true` when they are `static` like the
service client and the subscription, `false` when each object has its own. -/
structure Decls (α : Type) where
  cc : ControllerControlModeConstants
  cm : ControlModeConstants
  setControlMode : Handler α → Handler α
  publishers_static : Bool

/-! ## Scripts for the calls into rclcpp -/

/-- One turn of the loop `while (!set_mode_client_->wait_for_service(1s))`:
the answer of `wait_for_service`, and the answer of `rclcpp::ok()` which is
consulted only when the service was not available. -/
structure ServicePoll where
  wait_for_service : Bool
  ok : Bool
deriving DecidableEq, Repr

/-- Return codes of `rclcpp::spin_until_future_complete`. -/
inductive FutureReturnCode where
  | SUCCESS
  | INTERRUPTED
  | TIMEOUT
deriving DecidableEq, Repr

/-- Modelled from the spec: the response type of the mode service
(`as2_msgs::srv::SetControllerControlMode`) is absent from the sources; the
spec says "response is success/failure".  What happens to one request within
the one second wait: a response arrives carrying its success flag, or the wait
is interrupted, or it times out. -/
inductive Exchange where
  | response (success : Bool)
  | interrupted
  | timeout
deriving DecidableEq, Repr

/-- The code returned by `rclcpp::spin_until_future_complete`: `SUCCESS` as
soon as the future holds a response, whatever the response says. -/
def spin_until_future_complete : Exchange → FutureReturnCode
  | Exchange.response _ => FutureReturnCode.SUCCESS
  | Exchange.interrupted => FutureReturnCode.INTERRUPTED
  | Exchange.timeout => FutureReturnCode.TIMEOUT

/-- Script for one call of `setMode`: the successive answers inside the
waiting loop and the fate of the request. -/
structure ServiceEnv where
  polls : List ServicePoll
  exchange : Exchange
deriving DecidableEq, Repr

/-- Result of a handler call: `result` is the returned `bool`, or `none` when
the call is still inside the waiting loop after the scripted answers are used
up; `handler` and `world` are the state reached. -/
structure Outcome (α : Type) where
  result : Option Bool
  handler : Handler α
  world : World α
deriving DecidableEq, Repr

/-! ## basic_motion_commands.cpp -/

variable {α : Type}

/-- Constructor `BasicMotionCommandsHandler(as2::Node*)`, lines 9-40.
The member declarations and their default initialisers are in the absent
header, so the freshly initialised members are the parameter `members`.
`node_ptr_` is dereferenced on every path, so a null argument has no defined
result.  The set-up block creates the three publishers (stored in the static
slots or in the object under construction, according to `publishers_static`),
the subscription and the service client. -/
def BasicMotionCommandsHandler.ctor (publishers_static : Bool) (members : Handler α)
    (as2_ptr : Option Nat) (w : World α) : Option (Handler α × World α) :=
  match as2_ptr with
  | none => none
  | some n =>
    let h := { members with node_ptr_ := some n }
    let s : Handler α × World α :=
      if w.number_of_instances_ = 0 then
        let s1 : Handler α × World α :=
          if publishers_static then (h, { w with publishers := Publishers.created })
          else ({ h with publishers := Publishers.created }, w)
        (s1.1, { s1.2 with set_mode_client_ := true
                           controller_info_sub_ := true
                           setups := s1.2.setups + 1 })
      else (h, w)
    some (s.1, { s.2 with number_of_instances_ := s.2.number_of_instances_ + 1 })

/-- Destructor, lines 42-51.  Its body resets the service client and the
subscription and no publisher.  Publishers held by the object itself go away
with the object, which `lifeStep` removes from the live objects. -/
def BasicMotionCommandsHandler.dtor (h : Handler α) (w : World α) : World α :=
  let w1 := { w with number_of_instances_ := w.number_of_instances_ - 1 }
  if w1.number_of_instances_ = 0 ∧ h.node_ptr_ ≠ none then
    { w1 with set_mode_client_ := false
              controller_info_sub_ := false
              teardowns := w1.teardowns + 1 }
  else w1

/-- Subscription callback of `controller_info_sub_`, lines 26-29. -/
def controller_info_callback (msg : ControllerInfo) (w : World α) : World α :=
  { w with current_mode_ := msg.current_control_mode }

/-- Member `publishCommands`, lines 72-114; `now` is the answer of
`node_ptr_->now()`.  Each `switch` is the chain of tests of its labels in
source order.  A call of `publish` appends the message to the topic; the
publisher members, declared in the absent header, are taken to be valid
(the fields `publishers` are not consulted).  Logging is not part of the
state. -/
def publishCommands (cc : ControllerControlModeConstants) (now : Nat)
    (h : Handler α) (w : World α) : Handler α × World α :=
  let stamp := now
  let r : Handler α × World α :=
    if w.current_mode_.control_mode = cc.HOVER_MODE then (h, w)
    else if w.current_mode_.control_mode = cc.TRAJECTORY_MODE then
      (h, { w with trajectory_channel := w.trajectory_channel ++ [h.command_trajectory_msg_] })
    else if w.current_mode_.control_mode = cc.SPEED_MODE then
      let msg : TwistStamped α :=
        { h.command_twist_msg_ with header := { stamp := stamp, frame_id := "odom" } }
      ({ h with command_twist_msg_ := msg }, { w with twist_channel := w.twist_channel ++ [msg] })
    else if w.current_mode_.control_mode = cc.UNSET then (h, w)
    else (h, w)
  if r.2.current_mode_.yaw_mode = cc.YAW_ANGLE then r
  else if r.2.current_mode_.yaw_mode = cc.YAW_SPEED then r
  else if r.2.current_mode_.yaw_mode = cc.NONE then r
  else r

/-- The loop of lines 124-131.  `some true`: the service became available;
`some false`: `rclcpp::ok()` was false after an unsuccessful wait; `none`: the
script ended while the loop was still waiting. -/
def waitLoop : List ServicePoll → World α → Option Bool × World α
  | [], w => (none, w)
  | p :: ps, w =>
    let w1 := { w with service_probes := w.service_probes + 1 }
    if p.wait_for_service then (some true, w1)
    else if !p.ok then (some false, w1)
    else waitLoop ps w1

/-- Member `setMode`, lines 116-149. -/
def setMode (env : ServiceEnv) (mode : ControllerControlMode) (w : World α) :
    Option Bool × World α :=
  let request := mode
  match waitLoop env.polls w with
  | (none, w1) => (none, w1)
  | (some false, w1) => (some false, w1)
  | (some true, w1) =>
    let w2 := { w1 with requests := w1.requests ++ [request] }
    if spin_until_future_complete env.exchange = FutureReturnCode.SUCCESS then
      (some true, { w2 with current_mode_ := mode })
    else (some false, w2)

/-- Member `sendCommand`, lines 53-70.  The local static `last_time` is
initialised and never read. -/
def sendCommand (d : Decls α) (env : ServiceEnv) (now : Nat) (h : Handler α) (w : World α) :
    Outcome α :=
  let h := d.setControlMode h
  if w.current_mode_ ≠ h.desired_control_mode_ then
    match setMode env h.desired_control_mode_ w with
    | (none, w1) => { result := none, handler := h, world := w1 }
    | (some false, w1) => { result := some false, handler := h, world := w1 }
    | (some true, w1) =>
      let r := publishCommands d.cc now h w1
      { result := some true, handler := r.1, world := r.2 }
  else
    let r := publishCommands d.cc now h w
    { result := some true, handler := r.1, world := r.2 }

/-! ## trajectory_motion.cpp -/

/-- Constructor `TrajectoryMotion(as2::Node*)`, lines 8-13. -/
def TrajectoryMotion.ctor (d : Decls α) (members : Handler α) (node_ptr : Option Nat)
    (w : World α) : Option (Handler α × World α) :=
  match BasicMotionCommandsHandler.ctor d.publishers_static members node_ptr w with
  | none => none
  | some (h, w1) =>
    let h := { h with desired_control_mode_ :=
                { h.desired_control_mode_ with yaw_mode := d.cm.NONE } }
    let h := { h with desired_control_mode_ :=
                { h.desired_control_mode_ with control_mode := d.cm.TRAJECTORY } }
    let h := { h with desired_control_mode_ :=
                { h.desired_control_mode_ with reference_frame := d.cm.LOCAL_ENU_FRAME } }
    some (h, w1)

/-- The assignment `v[i] = x` on a `std::vector`; defined when `i < v.size()`. -/
def assign (v : List α) (i : Nat) (x : α) : List α := v.set i x

/-- Member `sendTrajectoryCommandWithYawAngle`, lines 15-45.  The `float`
arguments are stored into `double` cells, a conversion that keeps the value. -/
def sendTrajectoryCommandWithYawAngle [Zero α] (d : Decls α) (env : ServiceEnv) (now : Nat)
    (x y z yaw_angle vx vy vz ax ay az : α) (h : Handler α) (w : World α) : Outcome α :=
  let h := { h with desired_control_mode_ :=
              { h.desired_control_mode_ with yaw_mode := d.cm.YAW_ANGLE } }
  let m := h.command_trajectory_msg_
  let m := { m with positions := assign m.positions 0 x }
  let m := { m with velocities := assign m.velocities 0 vx }
  let m := { m with accelerations := assign m.accelerations 0 ax }
  let m := { m with positions := assign m.positions 1 y }
  let m := { m with velocities := assign m.velocities 1 vy }
  let m := { m with accelerations := assign m.accelerations 1 ay }
  let m := { m with positions := assign m.positions 2 z }
  let m := { m with velocities := assign m.velocities 2 vz }
  let m := { m with accelerations := assign m.accelerations 2 az }
  let m := { m with positions := assign m.positions 3 yaw_angle }
  let m := { m with velocities := assign m.velocities 3 0 }
  let m := { m with accelerations := assign m.accelerations 3 0 }
  sendCommand d env now { h with command_trajectory_msg_ := m } w

/-- Member `sendTrajectoryCommandWithYawSpeed`, lines 47-77. -/
def sendTrajectoryCommandWithYawSpeed [Zero α] (d : Decls α) (env : ServiceEnv) (now : Nat)
    (x y z vx vy vz yaw_speed ax ay az : α) (h : Handler α) (w : World α) : Outcome α :=
  let h := { h with desired_control_mode_ :=
              { h.desired_control_mode_ with yaw_mode := d.cm.YAW_SPEED } }
  let m := h.command_trajectory_msg_
  let m := { m with positions := assign m.positions 0 x }
  let m := { m with velocities := assign m.velocities 0 vx }
  let m := { m with accelerations := assign m.accelerations 0 ax }
  let m := { m with positions := assign m.positions 1 y }
  let m := { m with velocities := assign m.velocities 1 vy }
  let m := { m with accelerations := assign m.accelerations 1 ay }
  let m := { m with positions := assign m.positions 2 z }
  let m := { m with velocities := assign m.velocities 2 vz }
  let m := { m with accelerations := assign m.accelerations 2 az }
  let m := { m with positions := assign m.positions 3 0 }
  let m := { m with velocities := assign m.velocities 3 yaw_speed }
  let m := { m with accelerations := assign m.accelerations 3 0 }
  sendCommand d env now { h with command_trajectory_msg_ := m } w

/-! ## Concrete data used to evaluate the definitions -/

/-- A choice of values for the absent constants, with `setControlMode` doing
nothing and the publishers held per object. -/
def sampleDecls : Decls Int :=
  { cc := { HOVER_MODE := 1, TRAJECTORY_MODE := 2, SPEED_MODE := 3, UNSET := 0
            YAW_ANGLE := 1, YAW_SPEED := 2, NONE := 0
            control_labels := by decide
            yaw_labels := by decide }
    cm := { NONE := 0, YAW_ANGLE := 1, YAW_SPEED := 2, TRAJECTORY := 2, LOCAL_ENU_FRAME := 1 }
    setControlMode := fun h => h
    publishers_static := false }

/-- Freshly initialised members with a zero 4 x 3 setpoint matrix and zero
twist and pose messages. -/
def sampleMembers : Handler Int :=
  { node_ptr_ := none
    publishers := Publishers.null
    desired_control_mode_ := { yaw_mode := 0, control_mode := 0, reference_frame := 0 }
    command_trajectory_msg_ :=
      { positions := [0, 0, 0, 0], velocities := [0, 0, 0, 0], accelerations := [0, 0, 0, 0]
        effort := [], time_from_start := 0 }
    command_pose_msg_ :=
      { header := { stamp := 0, frame_id := "" }
        position := { x := 0, y := 0, z := 0 }
        orientation := ({ x := 0, y := 0, z := 0 }, 0) }
    command_twist_msg_ :=
      { header := { stamp := 0, frame_id := "" }
        twist := { linear := { x := 0, y := 0, z := 0 }, angular := { x := 0, y := 0, z := 0 } } } }

/-- The `TrajectoryMotion` object built from `sampleMembers` on node 1. -/
def sampleHandler : Handler Int :=
  { sampleMembers with
    node_ptr_ := some 1
    publishers := Publishers.created
    desired_control_mode_ := { yaw_mode := 0, control_mode := 2, reference_frame := 1 } }

/-- The process-wide state once that first object exists. -/
def sampleWorld : World Int :=
  { World.start Int with
    number_of_instances_ := 1
    set_mode_client_ := true
    controller_info_sub_ := true
    setups := 1 }

/-- A mode service that is available at once and answers nothing within the
wait. -/
def sampleTimeout : ServiceEnv :=
  { polls := [{ wait_for_service := true, ok := true }], exchange := Exchange.timeout }

/-- A mode service that is available at once and answers with the given
success flag. -/
def sampleAnswer (success : Bool) : ServiceEnv :=
  { polls := [{ wait_for_service := true, ok := true }], exchange := Exchange.response success }

/-! ## Runs -/

/-- The desired mode that `sendCommand` compares with the observed mode on
line 59: the member `desired_control_mode_` once `setControlMode` has run. -/
def desiredMode (d : Decls α) (h : Handler α) : ControllerControlMode :=
  (d.setControlMode h).desired_control_mode_

/-- A write to the observed mode: an inbound notification, or a call of
`setMode`. -/
inductive ModeEvent where
  | notification (msg : ControllerInfo)
  | request (env : ServiceEnv) (mode : ControllerControlMode)
deriving DecidableEq, Repr

/-- The mode an event carries. -/
def ModeEvent.mode : ModeEvent → ControllerControlMode
  | ModeEvent.notification msg => msg.current_control_mode
  | ModeEvent.request _ mode => mode

/-- Runs notifications and `setMode` calls in order; the run is defined as
long as every `setMode` call returns `true`. -/
def runModeEvents : World α → List ModeEvent → Option (World α)
  | w, [] => some w
  | w, ModeEvent.notification msg :: es => runModeEvents (controller_info_callback msg w) es
  | w, ModeEvent.request env mode :: es =>
    match setMode env mode w with
    | (some true, w1) => runModeEvents w1 es
    | _ => none

/-- What can happen to a `TrajectoryMotion` object and the process it lives
in: one of the two send calls, or an inbound notification between calls. -/
inductive TrajectoryEvent (α : Type) where
  | withYawAngle (env : ServiceEnv) (now : Nat) (x y z yaw_angle vx vy vz ax ay az : α)
  | withYawSpeed (env : ServiceEnv) (now : Nat) (x y z vx vy vz yaw_speed ax ay az : α)
  | inbound (msg : ControllerInfo)

/-- Runs the events in order on one handler.  A call that never returns ends
the run: the calls on one handler are sequential. -/
def runTrajectoryEvents [Zero α] (d : Decls α) :
    List (TrajectoryEvent α) → Handler α × World α → Handler α × World α
  | [], s => s
  | TrajectoryEvent.withYawAngle env now x y z yaw_angle vx vy vz ax ay az :: es, s =>
    let o := sendTrajectoryCommandWithYawAngle d env now x y z yaw_angle vx vy vz ax ay az s.1 s.2
    match o.result with
    | none => (o.handler, o.world)
    | some _ => runTrajectoryEvents d es (o.handler, o.world)
  | TrajectoryEvent.withYawSpeed env now x y z vx vy vz yaw_speed ax ay az :: es, s =>
    let o := sendTrajectoryCommandWithYawSpeed d env now x y z vx vy vz yaw_speed ax ay az s.1 s.2
    match o.result with
    | none => (o.handler, o.world)
    | some _ => runTrajectoryEvents d es (o.handler, o.world)
  | TrajectoryEvent.inbound msg :: es, s =>
    runTrajectoryEvents d es (s.1, controller_info_callback msg s.2)

/-- A process: the shared state and the handler objects that are alive. -/
structure Process (α : Type) where
  world : World α
  live : List (Handler α)
deriving DecidableEq, Repr

/-- Construction of a handler on a node, or destruction of the live handler at
position `i`. -/
inductive LifeEvent where
  | construct (as2_ptr : Option Nat)
  | destroy (i : Nat)
deriving DecidableEq, Repr

/-- One construction or destruction.  Undefined when the constructor is, or
when there is no live handler at the position to destroy. -/
def lifeStep (publishers_static : Bool) (members : Handler α) (p : Process α) :
    LifeEvent → Option (Process α)
  | LifeEvent.construct as2_ptr =>
    match BasicMotionCommandsHandler.ctor publishers_static members as2_ptr p.world with
    | none => none
    | some (h, w) => some { world := w, live := p.live ++ [h] }
  | LifeEvent.destroy i =>
    match p.live.get? i with
    | none => none
    | some h => some { world := BasicMotionCommandsHandler.dtor h p.world, live := p.live.eraseIdx i }

/-- A sequence of constructions and destructions. -/
def lifeRun (publishers_static : Bool) (members : Handler α) :
    Process α → List LifeEvent → Option (Process α)
  | p, [] => some p
  | p, e :: es =>
    match lifeStep publishers_static members p e with
    | none => none
    | some q => lifeRun publishers_static members q es

/-- The three publish channels have their publisher: in the static slots, or
in one of the live objects. -/
def publishersOpen (publishers_static : Bool) (p : Process α) : Bool :=
  if publishers_static then p.world.publishers.valid
  else p.live.any (fun h => h.publishers.valid)

/-- Invariant of the processes reached from program start. -/
def LifeInv (p : Process α) : Prop :=
  p.world.number_of_instances_ = p.live.length ∧
  (p.world.set_mode_client_ = true ↔ 0 < p.live.length) ∧
  (p.world.controller_info_sub_ = true ↔ 0 < p.live.length) ∧
  p.world.setups = p.world.teardowns + (if p.live.length = 0 then 0 else 1) ∧
  ∀ h ∈ p.live, h.node_ptr_ ≠ none

/-- The run used to evaluate the lifecycle: two constructions, then the
destruction of the first object, then of the second. -/
def sampleLife : List LifeEvent :=
  [LifeEvent.construct (some 1), LifeEvent.construct (some 1), LifeEvent.destroy 0,
   LifeEvent.destroy 0]

/-- With per-object publishers, the process after the first three events of
`sampleLife`: the second object is left, and it was constructed when the
count was 1. -/
def sampleOneLeft : Process Int :=
  { world := { sampleWorld with number_of_instances_ := 1 }
    live := [{ sampleMembers with node_ptr_ := some 1 }] }

/-- With per-object publishers, the process after all of `sampleLife`. -/
def sampleNoneLeft : Process Int :=
  { world := { World.start Int with setups := 1, teardowns := 1 }
    live := [] }

/-- With static publishers, the process after all of `sampleLife`. -/
def sampleStaticEnd : Process Int :=
  { world := { World.start Int with
                setups := 1, teardowns := 1, publishers := Publishers.created }
    live := [] }

/-! ## Scenario: a trajectory setpoint, then the controller reports speed mode -/

/-- The call `sendTrajectoryCommandWithYawSpeed(1,2,3, 4,5,6, 7, 8,9,10)` on
`sampleHandler`, with a mode service that does not answer in time. -/
def speedScenarioCall : Outcome Int :=
  sendTrajectoryCommandWithYawSpeed sampleDecls sampleTimeout 0 1 2 3 4 5 6 7 8 9 10
    sampleHandler sampleWorld

/-- The controller then reports control mode `SPEED_MODE`. -/
def speedScenarioWorld : World Int :=
  controller_info_callback
    { current_control_mode := { yaw_mode := 2, control_mode := 3, reference_frame := 1 } }
    speedScenarioCall.world

/-- The publish step then runs at time 5. -/
def speedScenarioPublish : Handler Int × World Int :=
  publishCommands sampleDecls.cc 5 speedScenarioCall.handler speedScenarioWorld

/-! ## The publish step -/

/-- The `switch` on the yaw mode has only empty branches: the publish step is
the `switch` on the control mode. -/
theorem publishCommands_eq (cc : ControllerControlModeConstants) (now : Nat)
    (h : Handler α) (w : World α) :
    publishCommands cc now h w =
      if w.current_mode_.control_mode = cc.HOVER_MODE then (h, w)
      else if w.current_mode_.control_mode = cc.TRAJECTORY_MODE then
        (h, { w with trajectory_channel := w.trajectory_channel ++ [h.command_trajectory_msg_] })
      else if w.current_mode_.control_mode = cc.SPEED_MODE then
        ({ h with command_twist_msg_ :=
            { h.command_twist_msg_ with header := { stamp := now, frame_id := "odom" } } },
         { w with twist_channel := w.twist_channel ++
            [{ h.command_twist_msg_ with header := { stamp := now, frame_id := "odom" } }] })
      else (h, w) := by
  unfold publishCommands
  simp only [ite_self]

theorem ControllerControlModeConstants.trajectory_ne_hover (cc : ControllerControlModeConstants) :
    cc.TRAJECTORY_MODE ≠ cc.HOVER_MODE := by
  have hd := cc.control_labels
  simp only [List.nodup_cons, List.mem_cons, not_or] at hd
  exact fun e => hd.1.1 e.symm

theorem ControllerControlModeConstants.speed_ne_hover (cc : ControllerControlModeConstants) :
    cc.SPEED_MODE ≠ cc.HOVER_MODE := by
  have hd := cc.control_labels
  simp only [List.nodup_cons, List.mem_cons, not_or] at hd
  exact fun e => hd.1.2.1 e.symm

theorem ControllerControlModeConstants.speed_ne_trajectory (cc : ControllerControlModeConstants) :
    cc.SPEED_MODE ≠ cc.TRAJECTORY_MODE := by
  have hd := cc.control_labels
  simp only [List.nodup_cons, List.mem_cons, not_or] at hd
  exact fun e => hd.2.1.1 e.symm

/-- With the controller in trajectory mode the publish step appends the stored
setpoint matrix to the trajectory topic and touches nothing else. -/
theorem publishCommands_trajectory (cc : ControllerControlModeConstants) (now : Nat)
    (h : Handler α) (w : World α) (ht : w.current_mode_.control_mode = cc.TRAJECTORY_MODE) :
    publishCommands cc now h w =
      (h, { w with trajectory_channel := w.trajectory_channel ++ [h.command_trajectory_msg_] }) := by
  rw [publishCommands_eq, ht, if_neg cc.trajectory_ne_hover, if_pos rfl]

/-- With the controller in speed mode the publish step stamps the stored twist
message and appends it to the twist topic. -/
theorem publishCommands_speed (cc : ControllerControlModeConstants) (now : Nat)
    (h : Handler α) (w : World α) (hs : w.current_mode_.control_mode = cc.SPEED_MODE) :
    publishCommands cc now h w =
      ({ h with command_twist_msg_ :=
          { h.command_twist_msg_ with header := { stamp := now, frame_id := "odom" } } },
       { w with twist_channel := w.twist_channel ++
          [{ h.command_twist_msg_ with header := { stamp := now, frame_id := "odom" } }] }) := by
  rw [publishCommands_eq, hs, if_neg cc.speed_ne_hover, if_neg cc.speed_ne_trajectory, if_pos rfl]

/-- With any control mode other than trajectory and speed the publish step
does nothing. -/
theorem publishCommands_other (cc : ControllerControlModeConstants) (now : Nat)
    (h : Handler α) (w : World α) (ht : w.current_mode_.control_mode ≠ cc.TRAJECTORY_MODE)
    (hs : w.current_mode_.control_mode ≠ cc.SPEED_MODE) :
    publishCommands cc now h w = (h, w) := by
  rw [publishCommands_eq, if_neg ht, if_neg hs]
  simp only [ite_self]

/-- The publish step never changes the setpoint matrix, the desired mode, the
observed mode, the pose topic or the use of the mode service. -/
theorem publishCommands_frame (cc : ControllerControlModeConstants) (now : Nat)
    (h : Handler α) (w : World α) :
    (publishCommands cc now h w).1.command_trajectory_msg_ = h.command_trajectory_msg_ ∧
    (publishCommands cc now h w).1.desired_control_mode_ = h.desired_control_mode_ ∧
    (publishCommands cc now h w).2.current_mode_ = w.current_mode_ ∧
    (publishCommands cc now h w).2.pose_channel = w.pose_channel ∧
    (publishCommands cc now h w).2.requests = w.requests ∧
    (publishCommands cc now h w).2.service_probes = w.service_probes := by
  rw [publishCommands_eq]
  split_ifs <;> simp

/-- C9: the publish step routes on the control axis of the observed mode.
When it is `TRAJECTORY_MODE` the stored setpoint matrix is appended, unchanged
and once, to the trajectory topic and nothing else changes; when it is
`HOVER_MODE`, `UNSET` or a value that is none of the four labels, nothing is
published at all; and the outcome does not depend on the yaw axis: replacing
the yaw mode by any value leaves the three topics as they would be. -/
theorem C9_publish_routes_on_control_axis (cc : ControllerControlModeConstants) (now : Nat)
    (h : Handler α) (w : World α) :
    (w.current_mode_.control_mode = cc.TRAJECTORY_MODE →
      publishCommands cc now h w =
        (h, { w with trajectory_channel :=
                w.trajectory_channel ++ [h.command_trajectory_msg_] })) ∧
    ((w.current_mode_.control_mode = cc.HOVER_MODE ∨ w.current_mode_.control_mode = cc.UNSET ∨
        (w.current_mode_.control_mode ≠ cc.HOVER_MODE ∧
         w.current_mode_.control_mode ≠ cc.TRAJECTORY_MODE ∧
         w.current_mode_.control_mode ≠ cc.SPEED_MODE ∧
         w.current_mode_.control_mode ≠ cc.UNSET)) →
      publishCommands cc now h w = (h, w)) ∧
    (∀ yaw : Nat,
      (publishCommands cc now h
          { w with current_mode_ := { w.current_mode_ with yaw_mode := yaw } }).2.trajectory_channel
        = (publishCommands cc now h w).2.trajectory_channel ∧
      (publishCommands cc now h
          { w with current_mode_ := { w.current_mode_ with yaw_mode := yaw } }).2.twist_channel
        = (publishCommands cc now h w).2.twist_channel ∧
      (publishCommands cc now h
          { w with current_mode_ := { w.current_mode_ with yaw_mode := yaw } }).2.pose_channel
        = (publishCommands cc now h w).2.pose_channel) := by
  have hd := cc.control_labels
  simp only [List.nodup_cons, List.mem_cons, not_or] at hd
  refine ⟨publishCommands_trajectory cc now h w, ?_, ?_⟩
  · intro hc
    apply publishCommands_other
    · rcases hc with hc | hc | hc
      · rw [hc]; exact fun e => hd.1.1 e
      · rw [hc]; exact fun e => hd.2.1.2.1 e.symm
      · exact hc.2.1
    · rcases hc with hc | hc | hc
      · rw [hc]; exact fun e => hd.1.2.1 e
      · rw [hc]; exact fun e => hd.2.2.1.1 e.symm
      · exact hc.2.2.1
  · intro yaw
    simp only [publishCommands_eq]
    split_ifs <;> simp

/-- C9 evaluated: in trajectory mode the zero matrix of `sampleHandler` is the
one message on the trajectory topic; in hover mode nothing is published. -/
theorem C9_publish_routes_on_control_axis_witness :
    publishCommands sampleDecls.cc 0 sampleHandler
        { sampleWorld with current_mode_ := { yaw_mode := 1, control_mode := 2, reference_frame := 1 } }
      = (sampleHandler,
         { sampleWorld with
            current_mode_ := { yaw_mode := 1, control_mode := 2, reference_frame := 1 }
            trajectory_channel := [sampleHandler.command_trajectory_msg_] }) ∧
    publishCommands sampleDecls.cc 0 sampleHandler
        { sampleWorld with current_mode_ := { yaw_mode := 1, control_mode := 1, reference_frame := 1 } }
      = (sampleHandler,
         { sampleWorld with
            current_mode_ := { yaw_mode := 1, control_mode := 1, reference_frame := 1 } }) :=
  ⟨(C9_publish_routes_on_control_axis sampleDecls.cc 0 sampleHandler
      { sampleWorld with
        current_mode_ := { yaw_mode := 1, control_mode := 2, reference_frame := 1 } }).1 rfl,
   (C9_publish_routes_on_control_axis sampleDecls.cc 0 sampleHandler
      { sampleWorld with
        current_mode_ := { yaw_mode := 1, control_mode := 1, reference_frame := 1 } }).2.1
      (Or.inl rfl)⟩

/-- C6 (as amended): when the publish step runs with the observed control axis
`SPEED_MODE`, exactly one message is appended to the twist topic; it is the
handler's stored twist message `command_twist_msg_` with the publish time as
stamp and "odom" as frame, so its twist is the stored one; nothing is
published on the trajectory or pose topic. -/
theorem C6_speed_publishes_stored_twist (cc : ControllerControlModeConstants) (now : Nat)
    (h : Handler α) (w : World α) (hs : w.current_mode_.control_mode = cc.SPEED_MODE) :
    (publishCommands cc now h w).2.twist_channel =
      w.twist_channel ++
        [{ header := { stamp := now, frame_id := "odom" }, twist := h.command_twist_msg_.twist }] ∧
    (publishCommands cc now h w).2.trajectory_channel = w.trajectory_channel ∧
    (publishCommands cc now h w).2.pose_channel = w.pose_channel := by
  rw [publishCommands_speed cc now h w hs]
  exact ⟨rfl, rfl, rfl⟩

/-- C6 (as amended) evaluated in the speed scenario. -/
theorem C6_speed_publishes_stored_twist_witness :
    speedScenarioWorld.current_mode_.control_mode = sampleDecls.cc.SPEED_MODE ∧
    speedScenarioPublish.2.twist_channel =
      speedScenarioWorld.twist_channel ++
        [{ header := { stamp := 5, frame_id := "odom" }
           twist := speedScenarioCall.handler.command_twist_msg_.twist }] ∧
    speedScenarioPublish.2.trajectory_channel = speedScenarioWorld.trajectory_channel ∧
    speedScenarioPublish.2.pose_channel = speedScenarioWorld.pose_channel :=
  ⟨rfl, C6_speed_publishes_stored_twist sampleDecls.cc 5 speedScenarioCall.handler
    speedScenarioWorld rfl⟩

/-- C6 as stated fails: after `sendTrajectoryCommandWithYawSpeed(1,2,3, 4,5,6,
7, 8,9,10)` the velocity column of the matrix is `[4, 5, 6, 7]`; when the
controller then reports speed mode and the publish step runs, the one message
on the twist topic has linear velocity `(0, 0, 0)`. -/
theorem C6_published_twist_is_not_the_velocity_row :
    speedScenarioCall.handler.command_trajectory_msg_.velocities = [4, 5, 6, 7] ∧
    speedScenarioWorld.current_mode_.control_mode = sampleDecls.cc.SPEED_MODE ∧
    speedScenarioPublish.2.twist_channel.map (fun m => m.twist.linear)
      = [{ x := 0, y := 0, z := 0 }] ∧
    speedScenarioPublish.2.twist_channel.map (fun m => m.twist.linear)
      ≠ [{ x := 4, y := 5, z := 6 }] := by
  decide

/-! ## Mode negotiation -/

/-- The waiting loop only counts probes of the service. -/
theorem waitLoop_frame (ps : List ServicePoll) (w : World α) :
    ∃ n, (waitLoop ps w).2 = { w with service_probes := n } := by
  induction ps generalizing w with
  | nil => exact ⟨w.service_probes, rfl⟩
  | cons p ps ih =>
    simp only [waitLoop]
    split_ifs
    · exact ⟨_, rfl⟩
    · exact ⟨_, rfl⟩
    · obtain ⟨n, hn⟩ := ih { w with service_probes := w.service_probes + 1 }
      exact ⟨n, by rw [hn]⟩

/-- What `setMode` does to the process-wide state: it uses the mode service,
and it overwrites the observed mode exactly when it returns `true`. -/
theorem setMode_world (env : ServiceEnv) (mode : ControllerControlMode) (w : World α) :
    ∃ n rs, (setMode env mode w).2 =
      { w with service_probes := n
               requests := rs
               current_mode_ :=
                 if (setMode env mode w).1 = some true then mode else w.current_mode_ } := by
  obtain ⟨n, hn⟩ := waitLoop_frame env.polls w
  unfold setMode
  rcases hw : waitLoop env.polls w with ⟨r, w1⟩
  rw [hw] at hn
  simp only at hn
  subst hn
  rcases r with _ | _ | _
  · exact ⟨n, w.requests, by simp⟩
  · exact ⟨n, w.requests, by simp⟩
  · simp only
    by_cases hc : spin_until_future_complete env.exchange = FutureReturnCode.SUCCESS
    · rw [if_pos hc]
      exact ⟨n, w.requests ++ [mode], by simp⟩
    · rw [if_neg hc]
      exact ⟨n, w.requests ++ [mode], by simp⟩

/-- A call of `setMode` that returns `true` leaves the requested mode as the
observed mode. -/
theorem setMode_true_mode (env : ServiceEnv) (mode : ControllerControlMode) (w w1 : World α)
    (h : setMode env mode w = (some true, w1)) : w1.current_mode_ = mode := by
  obtain ⟨n, rs, hw⟩ := setMode_world env mode w
  rw [h] at hw
  simp only at hw
  rw [hw]
  simp

/-- A call of `setMode` publishes nothing. -/
theorem setMode_channels (env : ServiceEnv) (mode : ControllerControlMode) (w : World α) :
    (setMode env mode w).2.trajectory_channel = w.trajectory_channel ∧
    (setMode env mode w).2.twist_channel = w.twist_channel ∧
    (setMode env mode w).2.pose_channel = w.pose_channel := by
  obtain ⟨n, rs, hw⟩ := setMode_world env mode w
  rw [hw]
  exact ⟨rfl, rfl, rfl⟩

/-- A call of `setMode` that does not return `true` leaves the observed mode
as it was.  This covers the shutdown during the wait, the interrupted wait for
the response and the timeout. -/
theorem setMode_not_true_mode (env : ServiceEnv) (mode : ControllerControlMode) (w : World α)
    (h : (setMode env mode w).1 ≠ some true) :
    (setMode env mode w).2.current_mode_ = w.current_mode_ := by
  obtain ⟨n, rs, hw⟩ := setMode_world env mode w
  rw [hw]
  simp [h]

/-- Once the service is available, `setMode` returns `false` exactly when no
response arrives within the wait. -/
theorem setMode_available (ps : List ServicePoll) (ok : Bool) (x : Exchange)
    (mode : ControllerControlMode) (w : World α) :
    (setMode { polls := { wait_for_service := true, ok := ok } :: ps, exchange := x } mode w).1
      = some (decide (x ≠ Exchange.interrupted ∧ x ≠ Exchange.timeout)) := by
  cases x <;> simp [setMode, waitLoop, spin_until_future_complete]

/-- C3, the failing input evaluated: the service is available, the response
arrives in time and reports failure; `setMode` returns `true` and the observed
mode has become the requested one. -/
theorem C3_failure_response_is_taken_as_success :
    setMode (sampleAnswer false) { yaw_mode := 1, control_mode := 2, reference_frame := 1 }
        sampleWorld
      = (some true,
         { sampleWorld with
            current_mode_ := { yaw_mode := 1, control_mode := 2, reference_frame := 1 }
            service_probes := 1
            requests := [{ yaw_mode := 1, control_mode := 2, reference_frame := 1 }] }) ∧
    sampleWorld.current_mode_ = { yaw_mode := 0, control_mode := 0, reference_frame := 0 } := by
  decide

/-- One event of a defined run leaves the mode it carries as the observed
mode. -/
theorem runModeEvents_cons (w w2 : World α) (e : ModeEvent) (es : List ModeEvent)
    (hrun : runModeEvents w (e :: es) = some w2) :
    ∃ w1 : World α, w1.current_mode_ = e.mode ∧ runModeEvents w1 es = some w2 := by
  cases e with
  | notification msg =>
    exact ⟨controller_info_callback msg w, rfl, hrun⟩
  | request env mode =>
    simp only [runModeEvents] at hrun
    rcases hs : setMode env mode w with ⟨r, w1⟩
    rw [hs] at hrun
    rcases r with _ | _ | _
    · simp at hrun
    · simp at hrun
    · exact ⟨w1, setMode_true_mode env mode w w1 hs, hrun⟩

/-- C4: the observed mode is last-write-wins.  After any run of inbound
notifications and `setMode` calls that returned `true`, the observed mode is
the mode carried by the last event of the run. -/
theorem C4_observed_mode_is_last_write (w w2 : World α) (es : List ModeEvent) (e : ModeEvent)
    (hrun : runModeEvents w es = some w2) (hlast : es.getLast? = some e) :
    w2.current_mode_ = e.mode := by
  induction es generalizing w with
  | nil => simp at hlast
  | cons e1 rest ih =>
    obtain ⟨w1, hm, hrest⟩ := runModeEvents_cons w w2 e1 rest hrun
    cases rest with
    | nil =>
      simp only [List.getLast?_singleton, Option.some.injEq] at hlast
      simp only [runModeEvents, Option.some.injEq] at hrest
      rw [← hrest, ← hlast, hm]
    | cons e2 rest2 =>
      rw [List.getLast?_cons_cons] at hlast
      exact ih w1 hrest hlast

/-- C4 evaluated: right after a successful request of mode (1,2,1) the observed
mode is (1,2,1), and after a later notification of mode (0,3,1) it is
(0,3,1). -/
theorem C4_observed_mode_is_last_write_witness :
    (runModeEvents sampleWorld
        [ModeEvent.request (sampleAnswer true)
          { yaw_mode := 1, control_mode := 2, reference_frame := 1 }]).map
      (fun w => w.current_mode_)
      = some { yaw_mode := 1, control_mode := 2, reference_frame := 1 } ∧
    (runModeEvents sampleWorld
        [ModeEvent.request (sampleAnswer true)
          { yaw_mode := 1, control_mode := 2, reference_frame := 1 },
         ModeEvent.notification
          { current_control_mode :=
              { yaw_mode := 0, control_mode := 3, reference_frame := 1 } }]).map
      (fun w => w.current_mode_)
      = some { yaw_mode := 0, control_mode := 3, reference_frame := 1 } := by
  constructor
  · rcases hr : runModeEvents sampleWorld
        [ModeEvent.request (sampleAnswer true)
          { yaw_mode := 1, control_mode := 2, reference_frame := 1 }] with _ | w1
    · exact absurd hr (by decide)
    · exact congrArg some (C4_observed_mode_is_last_write sampleWorld w1 _ _ hr rfl)
  · rcases hr : runModeEvents sampleWorld
        [ModeEvent.request (sampleAnswer true)
          { yaw_mode := 1, control_mode := 2, reference_frame := 1 },
         ModeEvent.notification
          { current_control_mode :=
              { yaw_mode := 0, control_mode := 3, reference_frame := 1 } }] with _ | w2
    · exact absurd hr (by decide)
    · exact congrArg some (C4_observed_mode_is_last_write sampleWorld w2 _ _ hr rfl)

/-! ## Dispatch -/

/-- Whatever `sendCommand` returns, the handler keeps the setpoint matrix and
the desired mode it had once `setControlMode` had run. -/
theorem sendCommand_handler_frame (d : Decls α) (env : ServiceEnv) (now : Nat)
    (h : Handler α) (w : World α) :
    (sendCommand d env now h w).handler.command_trajectory_msg_
      = (d.setControlMode h).command_trajectory_msg_ ∧
    (sendCommand d env now h w).handler.desired_control_mode_
      = (d.setControlMode h).desired_control_mode_ := by
  unfold sendCommand
  simp only
  split_ifs with hne
  · rcases setMode env (d.setControlMode h).desired_control_mode_ w with ⟨r, w1⟩
    rcases r with _ | _ | _
    · exact ⟨rfl, rfl⟩
    · exact ⟨rfl, rfl⟩
    · exact ⟨(publishCommands_frame d.cc now _ w1).1, (publishCommands_frame d.cc now _ w1).2.1⟩
  · exact ⟨(publishCommands_frame d.cc now _ w).1, (publishCommands_frame d.cc now _ w).2.1⟩

/-- When `sendCommand` returns `true` it has run the publish step, in a state
whose observed mode is the desired mode and whose topics are still those of
the entry state. -/
theorem sendCommand_true (d : Decls α) (env : ServiceEnv) (now : Nat) (h : Handler α)
    (w : World α) (hr : (sendCommand d env now h w).result = some true) :
    ∃ w1 : World α,
      w1.current_mode_ = desiredMode d h ∧
      w1.trajectory_channel = w.trajectory_channel ∧
      w1.twist_channel = w.twist_channel ∧
      w1.pose_channel = w.pose_channel ∧
      ((sendCommand d env now h w).handler, (sendCommand d env now h w).world)
        = publishCommands d.cc now (d.setControlMode h) w1 := by
  unfold sendCommand at hr ⊢
  simp only at hr ⊢
  by_cases hne : w.current_mode_ ≠ (d.setControlMode h).desired_control_mode_
  · rw [if_pos hne] at hr ⊢
    have hch := setMode_channels env (d.setControlMode h).desired_control_mode_ w
    rcases hs : setMode env (d.setControlMode h).desired_control_mode_ w with ⟨r, w1⟩
    rw [hs] at hr hch
    rcases r with _ | _ | _
    · simp at hr
    · simp at hr
    · exact ⟨w1, setMode_true_mode env _ w w1 hs, hch.1, hch.2.1, hch.2.2, rfl⟩
  · rw [if_neg hne] at hr ⊢
    exact ⟨w, not_not.mp hne, rfl, rfl, rfl, rfl⟩

/-- C1: if the observed mode differs from the desired mode and the mode-change
request fails (`setMode` returns `false`), then `sendCommand` returns `false`
and nothing has been published on the trajectory, twist or pose topic. -/
theorem C1_failed_mode_change_publishes_nothing (d : Decls α) (env : ServiceEnv) (now : Nat)
    (h : Handler α) (w : World α)
    (hne : w.current_mode_ ≠ desiredMode d h)
    (hfail : (setMode env (desiredMode d h) w).1 = some false) :
    (sendCommand d env now h w).result = some false ∧
    (sendCommand d env now h w).world.trajectory_channel = w.trajectory_channel ∧
    (sendCommand d env now h w).world.twist_channel = w.twist_channel ∧
    (sendCommand d env now h w).world.pose_channel = w.pose_channel := by
  have hch := setMode_channels env (desiredMode d h) w
  unfold sendCommand
  unfold desiredMode at hne hfail hch
  simp only
  rw [if_pos hne]
  rcases hs : setMode env (d.setControlMode h).desired_control_mode_ w with ⟨r, w1⟩
  rw [hs] at hfail hch
  simp only at hfail
  subst hfail
  exact ⟨rfl, hch⟩

/-- C1 evaluated: `sampleHandler` wants mode (0,2,1), the controller is in
mode (0,0,0) and the mode service does not answer in time. -/
theorem C1_failed_mode_change_publishes_nothing_witness :
    sampleWorld.current_mode_ ≠ desiredMode sampleDecls sampleHandler ∧
    (setMode sampleTimeout (desiredMode sampleDecls sampleHandler) sampleWorld).1 = some false ∧
    (sendCommand sampleDecls sampleTimeout 0 sampleHandler sampleWorld).result = some false ∧
    (sendCommand sampleDecls sampleTimeout 0 sampleHandler sampleWorld).world.trajectory_channel
      = [] ∧
    (sendCommand sampleDecls sampleTimeout 0 sampleHandler sampleWorld).world.twist_channel
      = [] ∧
    (sendCommand sampleDecls sampleTimeout 0 sampleHandler sampleWorld).world.pose_channel
      = [] :=
  ⟨by decide, by decide,
   C1_failed_mode_change_publishes_nothing sampleDecls sampleTimeout 0 sampleHandler sampleWorld
    (by decide) (by decide)⟩

/-- C2: if the observed mode equals the desired mode when `sendCommand` is
entered, the mode service is not used (no probe, no request), the publish step
runs on the entry state, and the call returns `true`. -/
theorem C2_matching_mode_skips_negotiation (d : Decls α) (env : ServiceEnv) (now : Nat)
    (h : Handler α) (w : World α) (heq : w.current_mode_ = desiredMode d h) :
    (sendCommand d env now h w).result = some true ∧
    (sendCommand d env now h w).world.requests = w.requests ∧
    (sendCommand d env now h w).world.service_probes = w.service_probes ∧
    ((sendCommand d env now h w).handler, (sendCommand d env now h w).world)
      = publishCommands d.cc now (d.setControlMode h) w := by
  unfold desiredMode at heq
  have hfr := publishCommands_frame d.cc now (d.setControlMode h) w
  unfold sendCommand
  simp only
  rw [if_neg (not_not.mpr heq)]
  exact ⟨rfl, hfr.2.2.2.2.1, hfr.2.2.2.2.2, rfl⟩

/-- C2 evaluated: the controller already is in the mode `sampleHandler`
wants. -/
theorem C2_matching_mode_skips_negotiation_witness :
    ({ sampleWorld with current_mode_ := sampleHandler.desired_control_mode_ } :
        World Int).current_mode_ = desiredMode sampleDecls sampleHandler ∧
    (sendCommand sampleDecls sampleTimeout 0 sampleHandler
      { sampleWorld with current_mode_ := sampleHandler.desired_control_mode_ }).result
      = some true ∧
    (sendCommand sampleDecls sampleTimeout 0 sampleHandler
      { sampleWorld with current_mode_ := sampleHandler.desired_control_mode_ }).world.requests
      = [] :=
  ⟨rfl,
   (C2_matching_mode_skips_negotiation sampleDecls sampleTimeout 0 sampleHandler
      { sampleWorld with current_mode_ := sampleHandler.desired_control_mode_ } rfl).1,
   (C2_matching_mode_skips_negotiation sampleDecls sampleTimeout 0 sampleHandler
      { sampleWorld with current_mode_ := sampleHandler.desired_control_mode_ } rfl).2.1⟩

/-! ## Trajectory handler -/

/-- Four assignments to the cells 0..3 of a vector of four cells. -/
theorem assign_four (v : List α) (hv : v.length = 4) (a b c e : α) :
    assign (assign (assign (assign v 0 a) 1 b) 2 c) 3 e = [a, b, c, e] := by
  match v, hv with
  | [_, _, _, _], _ => rfl

/-- The desired mode after `sendTrajectoryCommandWithYawAngle`, when
`setControlMode` leaves the desired mode alone. -/
theorem yawAngle_desired [Zero α] (d : Decls α)
    (hscm : ∀ g, (d.setControlMode g).desired_control_mode_ = g.desired_control_mode_)
    (env : ServiceEnv) (now : Nat) (x y z yaw_angle vx vy vz ax ay az : α)
    (h : Handler α) (w : World α) :
    (sendTrajectoryCommandWithYawAngle d env now x y z yaw_angle vx vy vz ax ay az
        h w).handler.desired_control_mode_
      = { h.desired_control_mode_ with yaw_mode := d.cm.YAW_ANGLE } := by
  unfold sendTrajectoryCommandWithYawAngle
  simp only
  rw [(sendCommand_handler_frame d env now _ w).2, hscm]

/-- The desired mode after `sendTrajectoryCommandWithYawSpeed`, when
`setControlMode` leaves the desired mode alone. -/
theorem yawSpeed_desired [Zero α] (d : Decls α)
    (hscm : ∀ g, (d.setControlMode g).desired_control_mode_ = g.desired_control_mode_)
    (env : ServiceEnv) (now : Nat) (x y z vx vy vz yaw_speed ax ay az : α)
    (h : Handler α) (w : World α) :
    (sendTrajectoryCommandWithYawSpeed d env now x y z vx vy vz yaw_speed ax ay az
        h w).handler.desired_control_mode_
      = { h.desired_control_mode_ with yaw_mode := d.cm.YAW_SPEED } := by
  unfold sendTrajectoryCommandWithYawSpeed
  simp only
  rw [(sendCommand_handler_frame d env now _ w).2, hscm]

/-- C5: on a handler whose setpoint matrix has four cells per column, after
`sendTrajectoryCommandWithYawAngle` the matrix holds positions `[x,y,z,yaw]`,
velocities `[vx,vy,vz,0]`, accelerations `[ax,ay,az,0]`, and after
`sendTrajectoryCommandWithYawSpeed` it holds positions `[x,y,z,0]`, velocities
`[vx,vy,vz,yaw]`, accelerations `[ax,ay,az,0]`; this whatever the call
returns.  `setControlMode` is assumed not to write the matrix. -/
theorem C5_setpoint_matrix_cells [Zero α] (d : Decls α) (env : ServiceEnv) (now : Nat)
    (x y z yaw vx vy vz ax ay az : α) (h : Handler α) (w : World α)
    (hscm : ∀ g, (d.setControlMode g).command_trajectory_msg_ = g.command_trajectory_msg_)
    (hp : h.command_trajectory_msg_.positions.length = 4)
    (hv : h.command_trajectory_msg_.velocities.length = 4)
    (ha : h.command_trajectory_msg_.accelerations.length = 4) :
    ((sendTrajectoryCommandWithYawAngle d env now x y z yaw vx vy vz ax ay az
        h w).handler.command_trajectory_msg_.positions = [x, y, z, yaw] ∧
     (sendTrajectoryCommandWithYawAngle d env now x y z yaw vx vy vz ax ay az
        h w).handler.command_trajectory_msg_.velocities = [vx, vy, vz, 0] ∧
     (sendTrajectoryCommandWithYawAngle d env now x y z yaw vx vy vz ax ay az
        h w).handler.command_trajectory_msg_.accelerations = [ax, ay, az, 0]) ∧
    ((sendTrajectoryCommandWithYawSpeed d env now x y z vx vy vz yaw ax ay az
        h w).handler.command_trajectory_msg_.positions = [x, y, z, 0] ∧
     (sendTrajectoryCommandWithYawSpeed d env now x y z vx vy vz yaw ax ay az
        h w).handler.command_trajectory_msg_.velocities = [vx, vy, vz, yaw] ∧
     (sendTrajectoryCommandWithYawSpeed d env now x y z vx vy vz yaw ax ay az
        h w).handler.command_trajectory_msg_.accelerations = [ax, ay, az, 0]) := by
  unfold sendTrajectoryCommandWithYawAngle sendTrajectoryCommandWithYawSpeed
  simp only
  rw [(sendCommand_handler_frame d env now _ w).1, hscm,
      (sendCommand_handler_frame d env now _ w).1, hscm]
  simp only
  simp only [assign_four _ hp, assign_four _ hv, assign_four _ ha, and_self]

/-- C5 evaluated on `sampleHandler` with the values 1 to 10. -/
theorem C5_setpoint_matrix_cells_witness :
    ((sendTrajectoryCommandWithYawAngle sampleDecls sampleTimeout 0 1 2 3 4 5 6 7 8 9 10
        sampleHandler sampleWorld).handler.command_trajectory_msg_.positions = [1, 2, 3, 4] ∧
     (sendTrajectoryCommandWithYawAngle sampleDecls sampleTimeout 0 1 2 3 4 5 6 7 8 9 10
        sampleHandler sampleWorld).handler.command_trajectory_msg_.velocities = [5, 6, 7, 0] ∧
     (sendTrajectoryCommandWithYawAngle sampleDecls sampleTimeout 0 1 2 3 4 5 6 7 8 9 10
        sampleHandler sampleWorld).handler.command_trajectory_msg_.accelerations
        = [8, 9, 10, 0]) ∧
    ((sendTrajectoryCommandWithYawSpeed sampleDecls sampleTimeout 0 1 2 3 5 6 7 4 8 9 10
        sampleHandler sampleWorld).handler.command_trajectory_msg_.positions = [1, 2, 3, 0] ∧
     (sendTrajectoryCommandWithYawSpeed sampleDecls sampleTimeout 0 1 2 3 5 6 7 4 8 9 10
        sampleHandler sampleWorld).handler.command_trajectory_msg_.velocities = [5, 6, 7, 4] ∧
     (sendTrajectoryCommandWithYawSpeed sampleDecls sampleTimeout 0 1 2 3 5 6 7 4 8 9 10
        sampleHandler sampleWorld).handler.command_trajectory_msg_.accelerations
        = [8, 9, 10, 0]) :=
  C5_setpoint_matrix_cells sampleDecls sampleTimeout 0 1 2 3 4 5 6 7 8 9 10 sampleHandler
    sampleWorld (fun _ => rfl) rfl rfl rfl

/-- The constructor of `TrajectoryMotion` leaves the desired mode
(`NONE`, `TRAJECTORY`, `LOCAL_ENU_FRAME`). -/
theorem TrajectoryMotion.ctor_desired (d : Decls α) (members : Handler α)
    (node_ptr : Option Nat) (w0 w1 : World α) (h0 : Handler α)
    (hctor : TrajectoryMotion.ctor d members node_ptr w0 = some (h0, w1)) :
    h0.desired_control_mode_ =
      { yaw_mode := d.cm.NONE, control_mode := d.cm.TRAJECTORY
        reference_frame := d.cm.LOCAL_ENU_FRAME } := by
  unfold TrajectoryMotion.ctor at hctor
  rcases hb : BasicMotionCommandsHandler.ctor d.publishers_static members node_ptr w0
    with _ | ⟨h, w⟩
  · rw [hb] at hctor
    simp at hctor
  · rw [hb] at hctor
    simp only [Option.some.injEq, Prod.mk.injEq] at hctor
    rw [← hctor.1]

/-- The control axis and the reference frame of the desired mode are kept by
every run of events. -/
theorem runTrajectoryEvents_desired [Zero α] (d : Decls α)
    (hscm : ∀ g, (d.setControlMode g).desired_control_mode_ = g.desired_control_mode_)
    (es : List (TrajectoryEvent α)) (s : Handler α × World α) :
    (runTrajectoryEvents d es s).1.desired_control_mode_.control_mode
      = s.1.desired_control_mode_.control_mode ∧
    (runTrajectoryEvents d es s).1.desired_control_mode_.reference_frame
      = s.1.desired_control_mode_.reference_frame := by
  induction es generalizing s with
  | nil => exact ⟨rfl, rfl⟩
  | cons e es ih =>
    cases e with
    | withYawAngle env now x y z yaw_angle vx vy vz ax ay az =>
      have hd := yawAngle_desired d hscm env now x y z yaw_angle vx vy vz ax ay az s.1 s.2
      simp only [runTrajectoryEvents]
      split
      · rw [hd]
        exact ⟨rfl, rfl⟩
      · have h2 := ih ((sendTrajectoryCommandWithYawAngle d env now x y z yaw_angle vx vy vz
            ax ay az s.1 s.2).handler, (sendTrajectoryCommandWithYawAngle d env now x y z
            yaw_angle vx vy vz ax ay az s.1 s.2).world)
        simp only [hd] at h2
        exact h2
    | withYawSpeed env now x y z vx vy vz yaw_speed ax ay az =>
      have hd := yawSpeed_desired d hscm env now x y z vx vy vz yaw_speed ax ay az s.1 s.2
      simp only [runTrajectoryEvents]
      split
      · rw [hd]
        exact ⟨rfl, rfl⟩
      · have h2 := ih ((sendTrajectoryCommandWithYawSpeed d env now x y z vx vy vz yaw_speed
            ax ay az s.1 s.2).handler, (sendTrajectoryCommandWithYawSpeed d env now x y z
            vx vy vz yaw_speed ax ay az s.1 s.2).world)
        simp only [hd] at h2
        exact h2
    | inbound msg =>
      simp only [runTrajectoryEvents]
      exact ih (s.1, controller_info_callback msg s.2)

/-- C7 (as amended): the constructor of `TrajectoryMotion` sets the desired
mode to (`NONE`, `TRAJECTORY`, `LOCAL_ENU_FRAME`); after every sequence of
`sendTrajectoryCommandWithYawAngle` / `sendTrajectoryCommandWithYawSpeed`
calls (and notifications in between) the control axis and the reference frame
of the desired mode still have the constructor's values, while the yaw axis is
overwritten by each call: `YAW_ANGLE` after the first kind, `YAW_SPEED` after
the second.  `setControlMode` is assumed not to write the desired mode. -/
theorem C7_control_axis_and_frame_fixed [Zero α] (d : Decls α)
    (hscm : ∀ g, (d.setControlMode g).desired_control_mode_ = g.desired_control_mode_)
    (members : Handler α) (node_ptr : Option Nat) (w0 w1 : World α) (h0 : Handler α)
    (hctor : TrajectoryMotion.ctor d members node_ptr w0 = some (h0, w1))
    (es : List (TrajectoryEvent α)) (w : World α) :
    h0.desired_control_mode_ =
      { yaw_mode := d.cm.NONE, control_mode := d.cm.TRAJECTORY
        reference_frame := d.cm.LOCAL_ENU_FRAME } ∧
    (runTrajectoryEvents d es (h0, w)).1.desired_control_mode_.control_mode = d.cm.TRAJECTORY ∧
    (runTrajectoryEvents d es (h0, w)).1.desired_control_mode_.reference_frame
      = d.cm.LOCAL_ENU_FRAME ∧
    (∀ (env : ServiceEnv) (now : Nat) (x y z yaw vx vy vz ax ay az : α)
        (h : Handler α) (v : World α),
      (sendTrajectoryCommandWithYawAngle d env now x y z yaw vx vy vz ax ay az
          h v).handler.desired_control_mode_
        = { h.desired_control_mode_ with yaw_mode := d.cm.YAW_ANGLE } ∧
      (sendTrajectoryCommandWithYawSpeed d env now x y z vx vy vz yaw ax ay az
          h v).handler.desired_control_mode_
        = { h.desired_control_mode_ with yaw_mode := d.cm.YAW_SPEED }) := by
  have h0d := TrajectoryMotion.ctor_desired d members node_ptr w0 w1 h0 hctor
  have hrun := runTrajectoryEvents_desired d hscm es (h0, w)
  simp only [h0d] at hrun
  exact ⟨h0d, hrun.1, hrun.2, fun env now x y z yaw vx vy vz ax ay az h v =>
    ⟨yawAngle_desired d hscm env now x y z yaw vx vy vz ax ay az h v,
     yawSpeed_desired d hscm env now x y z vx vy vz yaw ax ay az h v⟩⟩

/-- C7 (as amended) evaluated: `sampleHandler` is what the constructor
builds, and after a yaw-angle call followed by a yaw-speed call its desired
control axis is still 2 (`TRAJECTORY`) and its frame still 1. -/
theorem C7_control_axis_and_frame_fixed_witness :
    TrajectoryMotion.ctor sampleDecls sampleMembers (some 1) (World.start Int)
      = some (sampleHandler, sampleWorld) ∧
    (runTrajectoryEvents sampleDecls
        [TrajectoryEvent.withYawAngle (sampleAnswer true) 0 1 2 3 4 5 6 7 8 9 10,
         TrajectoryEvent.withYawSpeed sampleTimeout 1 1 2 3 4 5 6 7 8 9 10]
        (sampleHandler, sampleWorld)).1.desired_control_mode_.control_mode = 2 ∧
    (runTrajectoryEvents sampleDecls
        [TrajectoryEvent.withYawAngle (sampleAnswer true) 0 1 2 3 4 5 6 7 8 9 10,
         TrajectoryEvent.withYawSpeed sampleTimeout 1 1 2 3 4 5 6 7 8 9 10]
        (sampleHandler, sampleWorld)).1.desired_control_mode_.reference_frame = 1 :=
  ⟨rfl,
   (C7_control_axis_and_frame_fixed sampleDecls (fun _ => rfl) sampleMembers (some 1)
      (World.start Int) sampleWorld sampleHandler rfl _ sampleWorld).2.1,
   (C7_control_axis_and_frame_fixed sampleDecls (fun _ => rfl) sampleMembers (some 1)
      (World.start Int) sampleWorld sampleHandler rfl _ sampleWorld).2.2.1⟩

/-- C7 as stated fails: the constructor leaves the desired mode (0,2,1), that
is yaw axis `NONE`; after one call of `sendTrajectoryCommandWithYawAngle` the
desired mode is (1,2,1), yaw axis `YAW_ANGLE`. -/
theorem C7_yaw_axis_is_overwritten :
    TrajectoryMotion.ctor sampleDecls sampleMembers (some 1) (World.start Int)
      = some (sampleHandler, sampleWorld) ∧
    sampleHandler.desired_control_mode_
      = { yaw_mode := 0, control_mode := 2, reference_frame := 1 } ∧
    (sendTrajectoryCommandWithYawAngle sampleDecls (sampleAnswer true) 0 1 2 3 4 5 6 7 8 9 10
        sampleHandler sampleWorld).handler.desired_control_mode_
      = { yaw_mode := 1, control_mode := 2, reference_frame := 1 } ∧
    (sendTrajectoryCommandWithYawAngle sampleDecls (sampleAnswer true) 0 1 2 3 4 5 6 7 8 9 10
        sampleHandler sampleWorld).handler.desired_control_mode_
      ≠ sampleHandler.desired_control_mode_ := by
  decide

/-- C10: whenever `sendCommand` reaches the publish step (it returns `true`),
the publish step runs in a state whose observed mode is the handler's desired
mode and whose topics are those of the entry state.  Consequently, for a
handler whose desired control axis is the `TRAJECTORY` written by the
`TrajectoryMotion` constructor (the constant the publish step calls
`TRAJECTORY_MODE`), a send that returns `true` has appended exactly the stored
setpoint matrix to the trajectory topic and nothing to the twist topic.
For the second part `setControlMode` is assumed not to write the desired
mode. -/
theorem C10_publish_step_sees_desired_mode [Zero α] (d : Decls α) (env : ServiceEnv)
    (now : Nat) (x y z yaw vx vy vz ax ay az : α) (h : Handler α) (w : World α) :
    ((sendCommand d env now h w).result = some true →
      ∃ w1 : World α,
        w1.current_mode_ = desiredMode d h ∧
        w1.trajectory_channel = w.trajectory_channel ∧
        w1.twist_channel = w.twist_channel ∧
        w1.pose_channel = w.pose_channel ∧
        ((sendCommand d env now h w).handler, (sendCommand d env now h w).world)
          = publishCommands d.cc now (d.setControlMode h) w1) ∧
    ((∀ g, (d.setControlMode g).desired_control_mode_ = g.desired_control_mode_) →
      h.desired_control_mode_.control_mode = d.cm.TRAJECTORY →
      d.cm.TRAJECTORY = d.cc.TRAJECTORY_MODE →
      ((sendTrajectoryCommandWithYawAngle d env now x y z yaw vx vy vz ax ay az h w).result
          = some true →
        (sendTrajectoryCommandWithYawAngle d env now x y z yaw vx vy vz ax ay az
            h w).world.trajectory_channel
          = w.trajectory_channel ++
            [(sendTrajectoryCommandWithYawAngle d env now x y z yaw vx vy vz ax ay az
                h w).handler.command_trajectory_msg_] ∧
        (sendTrajectoryCommandWithYawAngle d env now x y z yaw vx vy vz ax ay az
            h w).world.twist_channel = w.twist_channel) ∧
      ((sendTrajectoryCommandWithYawSpeed d env now x y z vx vy vz yaw ax ay az h w).result
          = some true →
        (sendTrajectoryCommandWithYawSpeed d env now x y z vx vy vz yaw ax ay az
            h w).world.trajectory_channel
          = w.trajectory_channel ++
            [(sendTrajectoryCommandWithYawSpeed d env now x y z vx vy vz yaw ax ay az
                h w).handler.command_trajectory_msg_] ∧
        (sendTrajectoryCommandWithYawSpeed d env now x y z vx vy vz yaw ax ay az
            h w).world.twist_channel = w.twist_channel)) := by
  refine ⟨sendCommand_true d env now h w, ?_⟩
  intro hscm hdes hconst
  have key : ∀ g : Handler α, g.desired_control_mode_.control_mode = d.cm.TRAJECTORY →
      (sendCommand d env now g w).result = some true →
      (sendCommand d env now g w).world.trajectory_channel
        = w.trajectory_channel ++ [(sendCommand d env now g w).handler.command_trajectory_msg_] ∧
      (sendCommand d env now g w).world.twist_channel = w.twist_channel := by
    intro g hg hr
    obtain ⟨w1, hm, ht, htw, _, hpub⟩ := sendCommand_true d env now g w hr
    have hc : w1.current_mode_.control_mode = d.cc.TRAJECTORY_MODE := by
      rw [hm, desiredMode, hscm, hg, hconst]
    rw [publishCommands_trajectory d.cc now _ w1 hc] at hpub
    simp only [Prod.mk.injEq] at hpub
    rw [hpub.1, hpub.2]
    exact ⟨by rw [ht], htw⟩
  constructor
  · intro hr
    unfold sendTrajectoryCommandWithYawAngle at hr ⊢
    exact key _ hdes hr
  · intro hr
    unfold sendTrajectoryCommandWithYawSpeed at hr ⊢
    exact key _ hdes hr

/-- C10 evaluated: `sampleHandler` sends a yaw-angle setpoint while the
controller is in mode (0,0,0); the mode service accepts; the call returns
`true`, the trajectory topic holds the matrix and the twist topic is empty. -/
theorem C10_publish_step_sees_desired_mode_witness :
    (sendTrajectoryCommandWithYawAngle sampleDecls (sampleAnswer true) 0 1 2 3 4 5 6 7 8 9 10
        sampleHandler sampleWorld).result = some true ∧
    (sendTrajectoryCommandWithYawAngle sampleDecls (sampleAnswer true) 0 1 2 3 4 5 6 7 8 9 10
        sampleHandler sampleWorld).world.trajectory_channel
      = sampleWorld.trajectory_channel ++
        [(sendTrajectoryCommandWithYawAngle sampleDecls (sampleAnswer true) 0 1 2 3 4 5 6 7 8 9
            10 sampleHandler sampleWorld).handler.command_trajectory_msg_] ∧
    (sendTrajectoryCommandWithYawAngle sampleDecls (sampleAnswer true) 0 1 2 3 4 5 6 7 8 9 10
        sampleHandler sampleWorld).world.twist_channel = sampleWorld.twist_channel :=
  ⟨rfl,
   ((C10_publish_step_sees_desired_mode sampleDecls (sampleAnswer true) 0 1 2 3 4 5 6 7 8 9 10
      sampleHandler sampleWorld).2 (fun _ => rfl) rfl rfl).1 rfl⟩

/-! ## Lifecycle -/

/-- The process at program start satisfies the invariant. -/
theorem LifeInv_start : LifeInv ({ world := World.start α, live := [] } : Process α) := by
  refine ⟨rfl, ?_, ?_, rfl, ?_⟩
  · simp [World.start]
  · simp [World.start]
  · intro h hh
    simp at hh

/-- What a construction does to the count, the shared subscription and client
and the two block counters. -/
theorem lifeStep_construct (ps : Bool) (members : Handler α) (p q : Process α)
    (as2_ptr : Option Nat)
    (hstep : lifeStep ps members p (LifeEvent.construct as2_ptr) = some q) :
    ∃ (n : Nat) (g : Handler α), as2_ptr = some n ∧ g.node_ptr_ = some n ∧
      q.live = p.live ++ [g] ∧
      q.world.number_of_instances_ = p.world.number_of_instances_ + 1 ∧
      q.world.set_mode_client_ =
        (if p.world.number_of_instances_ = 0 then true else p.world.set_mode_client_) ∧
      q.world.controller_info_sub_ =
        (if p.world.number_of_instances_ = 0 then true else p.world.controller_info_sub_) ∧
      q.world.setups =
        (if p.world.number_of_instances_ = 0 then p.world.setups + 1 else p.world.setups) ∧
      q.world.teardowns = p.world.teardowns := by
  cases as2_ptr with
  | none => simp [lifeStep, BasicMotionCommandsHandler.ctor] at hstep
  | some n =>
    simp only [lifeStep, BasicMotionCommandsHandler.ctor, Option.some.injEq] at hstep
    subst hstep
    refine ⟨n, _, rfl, ?_, rfl, ?_⟩
    · cases ps <;> by_cases h0 : p.world.number_of_instances_ = 0 <;> simp [h0]
    · cases ps <;> by_cases h0 : p.world.number_of_instances_ = 0 <;> simp [h0]

/-- What a destruction does to the process. -/
theorem lifeStep_destroy (ps : Bool) (members : Handler α) (p q : Process α) (i : Nat)
    (hstep : lifeStep ps members p (LifeEvent.destroy i) = some q) :
    ∃ h : Handler α, p.live.get? i = some h ∧ q.live = p.live.eraseIdx i ∧
      q.world = BasicMotionCommandsHandler.dtor h p.world := by
  simp only [lifeStep] at hstep
  rcases hg : p.live.get? i with _ | h
  · rw [hg] at hstep
    simp at hstep
  · rw [hg] at hstep
    simp only [Option.some.injEq] at hstep
    subst hstep
    exact ⟨h, rfl, rfl, rfl⟩

/-- The destructor never touches the static publisher slots. -/
theorem dtor_keeps_publishers (h : Handler α) (w : World α) :
    (BasicMotionCommandsHandler.dtor h w).publishers = w.publishers := by
  unfold BasicMotionCommandsHandler.dtor
  simp only
  split_ifs <;> rfl

/-- Every construction and destruction keeps the invariant. -/
theorem LifeInv_step (ps : Bool) (members : Handler α) (p q : Process α) (e : LifeEvent)
    (hinv : LifeInv p) (hstep : lifeStep ps members p e = some q) : LifeInv q := by
  obtain ⟨hc, hcl, hsub, hset, hptr⟩ := hinv
  cases e with
  | construct as2_ptr =>
    obtain ⟨n, g, _, hg, hl, hcnt, hcli, hsb, hsu, htd⟩ :=
      lifeStep_construct ps members p q as2_ptr hstep
    have hlen : q.live.length = p.live.length + 1 := by rw [hl]; simp
    refine ⟨?_, ?_, ?_, ?_, ?_⟩
    · rw [hcnt, hlen]; omega
    · rw [hcli, hlen]
      by_cases h0 : p.world.number_of_instances_ = 0
      · simp [h0]
      · have hz : 0 < p.live.length := by omega
        simp [h0, hcl.mpr hz]
    · rw [hsb, hlen]
      by_cases h0 : p.world.number_of_instances_ = 0
      · simp [h0]
      · have hz : 0 < p.live.length := by omega
        simp [h0, hsub.mpr hz]
    · rw [hsu, htd, hset, hlen]
      by_cases h0 : p.world.number_of_instances_ = 0
      · have hz : p.live.length = 0 := by omega
        simp [h0, hz]
      · have hz : p.live.length ≠ 0 := by omega
        simp [h0, hz]
    · intro h hh
      rw [hl] at hh
      rcases List.mem_append.mp hh with hh | hh
      · exact hptr h hh
      · simp only [List.mem_singleton] at hh
        rw [hh, hg]; simp
  | destroy i =>
    obtain ⟨h, hg, hl, hw⟩ := lifeStep_destroy ps members p q i hstep
    obtain ⟨hi, _⟩ := List.get?_eq_some.mp hg
    have hnn : h.node_ptr_ ≠ none := hptr h (List.get?_mem hg)
    have hlen : q.live.length = p.live.length - 1 := by
      rw [hl, List.length_eraseIdx, if_pos hi]
    unfold BasicMotionCommandsHandler.dtor at hw
    simp only at hw
    by_cases h1 : p.world.number_of_instances_ - 1 = 0
    · have hz : p.live.length = 1 := by omega
      rw [if_pos ⟨h1, hnn⟩] at hw
      refine ⟨?_, ?_, ?_, ?_, ?_⟩
      · rw [hw, hlen]; simp only; omega
      · rw [hw, hlen, hz]; simp
      · rw [hw, hlen, hz]; simp
      · rw [hw, hlen, hz]; simp only; rw [hset, hz]; simp
      · intro g hgm
        rw [hl] at hgm
        exact hptr g (List.mem_of_mem_eraseIdx hgm)
    · have hz : 1 < p.live.length := by omega
      rw [if_neg (fun hh => h1 hh.1)] at hw
      refine ⟨?_, ?_, ?_, ?_, ?_⟩
      · rw [hw, hlen]; simp only; omega
      · rw [hw, hlen]; simp only
        constructor
        · intro _; omega
        · intro _; exact hcl.mpr (by omega)
      · rw [hw, hlen]; simp only
        constructor
        · intro _; omega
        · intro _; exact hsub.mpr (by omega)
      · rw [hw, hlen]; simp only
        rw [hset, if_neg (by omega), if_neg (by omega)]
      · intro g hgm
        rw [hl] at hgm
        exact hptr g (List.mem_of_mem_eraseIdx hgm)

/-- Every process reached by a defined run keeps the invariant. -/
theorem LifeInv_run (ps : Bool) (members : Handler α) (p q : Process α)
    (es : List LifeEvent) (hinv : LifeInv p) (hrun : lifeRun ps members p es = some q) :
    LifeInv q := by
  induction es generalizing p with
  | nil =>
    simp only [lifeRun, Option.some.injEq] at hrun
    rw [← hrun]
    exact hinv
  | cons e es ih =>
    simp only [lifeRun] at hrun
    rcases hs : lifeStep ps members p e with _ | r
    · rw [hs] at hrun
      simp at hrun
    · rw [hs] at hrun
      exact ih r (LifeInv_step ps members p r e hinv hs) hrun

/-- The part of the lifecycle that holds, whatever the storage of the
publishers: in every process reached from program start by constructions and
destructions of live handlers, `number_of_instances_` is the number of live
handlers, the shared subscription and service client exist exactly when some
handler is alive, and set-ups outnumber tear-downs by one exactly then.  From
such a process a construction adds one to the count and runs the set-up block
exactly when the count was 0; a destruction subtracts one and runs the
tear-down block exactly when the count was 1. -/
theorem lifecycle_count_and_shared_handles (ps : Bool) (members : Handler α)
    (es : List LifeEvent) (p : Process α)
    (hrun : lifeRun ps members { world := World.start α, live := [] } es = some p) :
    p.world.number_of_instances_ = p.live.length ∧
    (p.world.set_mode_client_ = true ↔ 0 < p.live.length) ∧
    (p.world.controller_info_sub_ = true ↔ 0 < p.live.length) ∧
    p.world.setups = p.world.teardowns + (if p.live.length = 0 then 0 else 1) ∧
    (∀ (as2_ptr : Option Nat) (q : Process α),
      lifeStep ps members p (LifeEvent.construct as2_ptr) = some q →
        q.world.number_of_instances_ = p.world.number_of_instances_ + 1 ∧
        q.live.length = p.live.length + 1 ∧
        q.world.setups =
          (if p.world.number_of_instances_ = 0 then p.world.setups + 1 else p.world.setups) ∧
        q.world.teardowns = p.world.teardowns) ∧
    (∀ (i : Nat) (q : Process α),
      lifeStep ps members p (LifeEvent.destroy i) = some q →
        q.world.number_of_instances_ = p.world.number_of_instances_ - 1 ∧
        q.live.length = p.live.length - 1 ∧
        q.world.teardowns =
          (if p.world.number_of_instances_ = 1 then p.world.teardowns + 1
           else p.world.teardowns) ∧
        q.world.setups = p.world.setups ∧
        q.world.publishers = p.world.publishers) := by
  have hinv := LifeInv_run ps members _ p es LifeInv_start hrun
  obtain ⟨hc, hcl, hsub, hset, hptr⟩ := hinv
  refine ⟨hc, hcl, hsub, hset, ?_, ?_⟩
  · intro as2_ptr q hstep
    obtain ⟨n, g, _, _, hl, hcnt, _, _, hsu, htd⟩ :=
      lifeStep_construct ps members p q as2_ptr hstep
    refine ⟨hcnt, ?_, hsu, htd⟩
    rw [hl]; simp
  · intro i q hstep
    obtain ⟨h, hg, hl, hw⟩ := lifeStep_destroy ps members p q i hstep
    obtain ⟨hi, _⟩ := List.get?_eq_some.mp hg
    have hnn : h.node_ptr_ ≠ none := hptr h (List.get?_mem hg)
    have hpub := dtor_keeps_publishers h p.world
    rw [← hw] at hpub
    unfold BasicMotionCommandsHandler.dtor at hw
    simp only at hw
    refine ⟨?_, ?_, ?_, ?_, hpub⟩
    · rw [hw]; split_ifs <;> rfl
    · rw [hl, List.length_eraseIdx, if_pos hi]
    · rw [hw]
      by_cases h1 : p.world.number_of_instances_ - 1 = 0
      · rw [if_pos ⟨h1, hnn⟩, if_pos (by omega)]
      · rw [if_neg (fun hh => h1 hh.1), if_neg (by omega)]
    · rw [hw]; split_ifs <;> rfl

/-- C8, the failing input evaluated: construct two handlers, destroy the
first, destroy the second.
If the publisher members are per object: after the first destruction the count
is 1 and the subscription and the client exist, but the one live handler holds
no publisher, so the publish channels are not open; the second destruction
then brings the count to 0 and runs the tear-down block.
If the publisher members are static: after the second destruction the count is
0, the tear-down block has run once and the subscription and the client are
released, but the three publishers are still there. -/
theorem C8_publishers_do_not_follow_the_count :
    (lifeRun false sampleMembers { world := World.start Int, live := [] } (sampleLife.take 3)
        = some sampleOneLeft ∧
      sampleOneLeft.world.number_of_instances_ = 1 ∧
      sampleOneLeft.live.length = 1 ∧
      sampleOneLeft.world.set_mode_client_ = true ∧
      sampleOneLeft.world.controller_info_sub_ = true ∧
      publishersOpen false sampleOneLeft = false ∧
      lifeStep false sampleMembers sampleOneLeft (LifeEvent.destroy 0) = some sampleNoneLeft ∧
      sampleNoneLeft.world.number_of_instances_ = 0 ∧
      sampleNoneLeft.world.teardowns = 1) ∧
    (lifeRun true sampleMembers { world := World.start Int, live := [] } sampleLife
        = some sampleStaticEnd ∧
      sampleStaticEnd.world.number_of_instances_ = 0 ∧
      sampleStaticEnd.live.length = 0 ∧
      sampleStaticEnd.world.teardowns = 1 ∧
      sampleStaticEnd.world.set_mode_client_ = false ∧
      sampleStaticEnd.world.controller_info_sub_ = false ∧
      publishersOpen true sampleStaticEnd = true) := by
  decide

end motionCommandsHandlers
end as2
